import Mathlib

/-!
Verification of the `AssignmentViewer` student component
(src/src/components/student/AssignmentViewer.tsx) and of the storage
policies declared in the SQL migrations.

The component is embedded shallowly: each handler becomes a pure function
from the component's local state and the external store's response to an
`Outcome` that records the requests issued to the store, the toasts shown
to the user, the console log entries, and the new local state.  The SQL
row-level-security policies become boolean predicates over an evaluation
context (the authenticated uid and role facts).
-/

namespace TechMarSign

/-- Mirrors the `Assignment` interface of AssignmentViewer.tsx. -/
structure Assignment where
  id : String
  course_id : String
  phase_number : Int
  title : String
  description : Option String
  due_days : Option Int
  max_score : Option Int
deriving DecidableEq, Repr

/-- Mirrors the `Submission` interface of AssignmentViewer.tsx. -/
structure Submission where
  id : String
  assignment_id : String
  submission_text : Option String
  score : Option Int
  feedback : Option String
  status : String
  submitted_at : String
deriving DecidableEq, Repr

/-- Mirrors the `CourseInfo` interface of AssignmentViewer.tsx. -/
structure CourseInfo where
  id : String
  title : String
  current_phase : Int
deriving DecidableEq, Repr

/-- The row shape inserted into `assignment_submissions` by `handleSubmit`. -/
structure InsertRow where
  assignment_id : String
  student_id : String
  submission_text : String
  status : String
deriving DecidableEq, Repr

/-- A request dispatched to the external store. -/
inductive Request where
  | readAssignments (courseIds : List String)
  | readSubmissions (studentId : String)
  | insertSubmission (row : InsertRow)
deriving DecidableEq, Repr

/-- A toast notification, as produced by the `sonner` calls. -/
inductive Toast where
  | error (msg : String)
  | success (msg : String)
deriving DecidableEq, Repr

/-- The component's local state: the five `useState` hooks of
`AssignmentViewer`.  The `assignments` record (string-keyed object of
assignment arrays) is modelled as an association list with first-match
lookup and insertion-ordered keys. -/
structure ViewerState where
  assignments : List (String × List Assignment)
  submissions : List Submission
  selectedAssignment : Option Assignment
  submissionText : String
  viewingFeedback : Option Submission
deriving DecidableEq, Repr

/-- The observable effect of running one handler: requests issued to the
store, toasts surfaced, console log entries, and the resulting state. -/
structure Outcome where
  requests : List Request
  toasts : List Toast
  logs : List String
  state : ViewerState
deriving DecidableEq, Repr

/-- JavaScript `String.prototype.trim`: strip leading and trailing
whitespace. -/
def jsTrim (s : String) : String :=
  String.mk (((s.toList.dropWhile Char.isWhitespace).reverse.dropWhile
    Char.isWhitespace).reverse)

/-- Indexing `grouped[c]` on the string-keyed object: first entry whose key
matches. -/
def lookupGroup : List (String × List Assignment) → String → Option (List Assignment)
  | [], _ => none
  | p :: rest, c => if p.1 == c then some p.2 else lookupGroup rest c

/-- One step of the grouping loop in `fetchAssignments`: if the course key
is already present, push the assignment onto its list; otherwise bind a new
key at the end (JS object keys keep insertion order). -/
def groupInsert : List (String × List Assignment) → Assignment → List (String × List Assignment)
  | [], a => [(a.course_id, [a])]
  | p :: rest, a =>
      if p.1 == a.course_id then (p.1, p.2 ++ [a]) :: rest
      else p :: groupInsert rest a

/-- The grouping loop of `fetchAssignments` (lines 72-78): fold the fetched
rows into a course-keyed record. -/
def groupByCourse (data : List Assignment) : List (String × List Assignment) :=
  data.foldl groupInsert []

/-- `getSubmission` (lines 92-94): first submission in the cached list whose
`assignment_id` matches. -/
def getSubmission (submissions : List Submission) (assignmentId : String) : Option Submission :=
  submissions.find? (fun s => s.assignment_id == assignmentId)

/-- The requests issued by a call to `fetchSubmissions` (line 83 guard:
returns without a request when there is no user). -/
def fetchSubmissionsRequest : Option String → List Request
  | none => []
  | some u => [Request.readSubmissions u]

/-- `fetchAssignments` (lines 59-80), as a function of the courses prop, the
current state and the store's response: issues one read request; on error it
logs and leaves the state alone; on success it replaces the assignment index
with the grouped data. -/
def fetchAssignments (courses : List CourseInfo) (st : ViewerState)
    (response : Except String (List Assignment)) : Outcome :=
  let courseIds := courses.map (·.id)
  match response with
  | .error e =>
      { requests := [Request.readAssignments courseIds]
        toasts := []
        logs := ["Failed to fetch assignments: " ++ e]
        state := st }
  | .ok data =>
      { requests := [Request.readAssignments courseIds]
        toasts := []
        logs := []
        state := { st with assignments := groupByCourse data } }

/-- `fetchSubmissions` (lines 82-90): no request without a user; otherwise
one read request, and the submission list is replaced by the response data,
with a failed response degraded to the empty list (`data || []`). -/
def fetchSubmissions (user : Option String) (st : ViewerState)
    (response : Except String (List Submission)) : Outcome :=
  match user with
  | none => { requests := [], toasts := [], logs := [], state := st }
  | some u =>
      match response with
      | .error _ =>
          { requests := [Request.readSubmissions u]
            toasts := []
            logs := []
            state := { st with submissions := [] } }
      | .ok data =>
          { requests := [Request.readSubmissions u]
            toasts := []
            logs := []
            state := { st with submissions := data } }

/-- `handleSubmit` (lines 96-120), as a function of the current user, the
local state, and the store's response to the insert (`none` = success).
The validation guard `!user || !selectedAssignment || !submissionText.trim()`
rejects with a toast and no request; otherwise one insert request is issued;
on error a toast is shown and nothing else changes; on success a toast is
shown, the dialog closes, the buffer clears, and `fetchSubmissions` is
re-invoked (issuing its read request). -/
def handleSubmit (user : Option String) (st : ViewerState)
    (insertError : Option String) : Outcome :=
  match user, st.selectedAssignment with
  | some u, some a =>
      if jsTrim st.submissionText == "" then
        { requests := []
          toasts := [Toast.error "Please enter your submission"]
          logs := []
          state := st }
      else
        let row : InsertRow :=
          { assignment_id := a.id
            student_id := u
            submission_text := jsTrim st.submissionText
            status := "pending" }
        match insertError with
        | some _ =>
            { requests := [Request.insertSubmission row]
              toasts := [Toast.error "Failed to submit assignment"]
              logs := []
              state := st }
        | none =>
            { requests := [Request.insertSubmission row] ++ fetchSubmissionsRequest (some u)
              toasts := [Toast.success "Assignment submitted successfully!"]
              logs := []
              state := { st with selectedAssignment := none, submissionText := "" } }
  | _, _ =>
      { requests := []
        toasts := [Toast.error "Please enter your submission"]
        logs := []
        state := st }

/-- The insert requests among a request list. -/
def insertRequests (rs : List Request) : List InsertRow :=
  rs.filterMap (fun r => match r with
    | Request.insertSubmission row => some row
    | _ => none)

/-- Whether a request list contains an assignment read. -/
def issuesAssignmentFetch (rs : List Request) : Bool :=
  rs.any (fun r => match r with
    | Request.readAssignments _ => true
    | _ => false)

/-- Whether a request list contains a submission read. -/
def issuesSubmissionFetch (rs : List Request) : Bool :=
  rs.any (fun r => match r with
    | Request.readSubmissions _ => true
    | _ => false)

end TechMarSign

namespace TechMarSign

/-- A concrete assignment used by the witness theorems. -/
def asg1 : Assignment :=
  { id := "a1", course_id := "c1", phase_number := 1, title := "HW1"
    description := none, due_days := none, max_score := none }

/-- A concrete state with `asg1` selected and a non-blank buffer. -/
def stValid : ViewerState :=
  { assignments := []
    submissions := []
    selectedAssignment := some asg1
    submissionText := "  My answer  "
    viewingFeedback := none }

/-- A concrete state with `asg1` selected and a whitespace-only buffer. -/
def stBlank : ViewerState :=
  { stValid with submissionText := "   " }

/-- C1: when an identity is present, an assignment is selected, and the text
buffer is non-empty after trimming, the submit handler issues exactly one
insert into `assignment_submissions`, whose row carries the trimmed buffer,
status "pending", the selected assignment's id and the identity's id. -/
theorem submit_valid_inserts_one_row
    (user : Option String) (u : String) (st : ViewerState) (a : Assignment)
    (err : Option String)
    (hu : user = some u) (ha : st.selectedAssignment = some a)
    (ht : jsTrim st.submissionText ≠ "") :
    insertRequests (handleSubmit user st err).requests =
      [{ assignment_id := a.id
         student_id := u
         submission_text := jsTrim st.submissionText
         status := "pending" }] := by
  subst hu
  rw [show jsTrim st.submissionText ≠ "" ↔ (jsTrim st.submissionText == "") = false by
        simp [beq_iff_eq]] at ht
  cases err <;>
    simp [handleSubmit, ha, ht, insertRequests, fetchSubmissionsRequest]

/-- Witness for C1 at a concrete state. -/
theorem submit_valid_inserts_one_row_witness :
    insertRequests (handleSubmit (some "u1") stValid none).requests =
      [{ assignment_id := "a1", student_id := "u1"
         submission_text := "My answer", status := "pending" }] := by
  have h := submit_valid_inserts_one_row (some "u1") "u1" stValid asg1 none
    rfl rfl (by decide)
  exact h

/-- C2: when the identity is absent, no assignment is selected, or the buffer
trims to empty, no request at all is issued and a validation-error toast is
surfaced, whatever the rest of the state holds. -/
theorem submit_invalid_no_write
    (user : Option String) (st : ViewerState) (err : Option String)
    (h : user = none ∨ st.selectedAssignment = none ∨ jsTrim st.submissionText = "") :
    (handleSubmit user st err).requests = [] ∧
      (handleSubmit user st err).toasts = [Toast.error "Please enter your submission"] := by
  rcases h with h | h | h
  · subst h; simp [handleSubmit]
  · cases user <;> simp [handleSubmit, h]
  · cases user with
    | none => simp [handleSubmit]
    | some u =>
        cases hsel : st.selectedAssignment with
        | none => simp [handleSubmit, hsel]
        | some a => simp [handleSubmit, hsel, h]

/-- Witness for C2 at a concrete state (whitespace-only buffer). -/
theorem submit_invalid_no_write_witness :
    (handleSubmit (some "u1") stBlank none).requests = [] ∧
      (handleSubmit (some "u1") stBlank none).toasts =
        [Toast.error "Please enter your submission"] :=
  submit_invalid_no_write (some "u1") stBlank none (Or.inr (Or.inr (by decide)))

/-- C3 counterexample: a concrete successful submission (the insert request
was issued and the success toast shown), after which the handler does NOT
issue an assignment fetch — contradicting the claim that both fetches of the
data loader are re-run. -/
theorem submit_success_no_assignment_refetch_cex :
    insertRequests (handleSubmit (some "u1") stValid none).requests ≠ [] ∧
      (handleSubmit (some "u1") stValid none).toasts =
        [Toast.success "Assignment submitted successfully!"] ∧
      issuesAssignmentFetch (handleSubmit (some "u1") stValid none).requests = false := by
  refine ⟨?_, rfl, rfl⟩
  decide

/-- C3 amended: after every successful submission insert, a success toast is
surfaced, the selected assignment is cleared, the text buffer is reset to
empty, and the submission fetch — but not the assignment fetch — is issued
again. -/
theorem submit_success_outcome
    (user : Option String) (u : String) (st : ViewerState) (a : Assignment)
    (hu : user = some u) (ha : st.selectedAssignment = some a)
    (ht : jsTrim st.submissionText ≠ "") :
    (handleSubmit user st none).toasts =
        [Toast.success "Assignment submitted successfully!"] ∧
      (handleSubmit user st none).state.selectedAssignment = none ∧
      (handleSubmit user st none).state.submissionText = "" ∧
      issuesSubmissionFetch (handleSubmit user st none).requests = true ∧
      issuesAssignmentFetch (handleSubmit user st none).requests = false := by
  subst hu
  rw [show jsTrim st.submissionText ≠ "" ↔ (jsTrim st.submissionText == "") = false by
        simp [beq_iff_eq]] at ht
  simp [handleSubmit, ha, ht, fetchSubmissionsRequest,
    issuesSubmissionFetch, issuesAssignmentFetch]

/-- Witness for the amended C3 at a concrete state. -/
theorem submit_success_outcome_witness :
    (handleSubmit (some "u1") stValid none).toasts =
        [Toast.success "Assignment submitted successfully!"] ∧
      (handleSubmit (some "u1") stValid none).state.selectedAssignment = none ∧
      (handleSubmit (some "u1") stValid none).state.submissionText = "" ∧
      issuesSubmissionFetch (handleSubmit (some "u1") stValid none).requests = true ∧
      issuesAssignmentFetch (handleSubmit (some "u1") stValid none).requests = false :=
  submit_success_outcome (some "u1") "u1" stValid asg1 rfl rfl (by decide)

/-- C4: when the insert request fails, an error toast is surfaced and the
local state is returned unchanged — the selected assignment stays set, the
buffer keeps its contents, and the cached assignment index and submission
list are untouched. -/
theorem submit_failure_state_unchanged
    (user : Option String) (u : String) (st : ViewerState) (a : Assignment)
    (e : String)
    (hu : user = some u) (ha : st.selectedAssignment = some a)
    (ht : jsTrim st.submissionText ≠ "") :
    (handleSubmit user st (some e)).toasts = [Toast.error "Failed to submit assignment"] ∧
      (handleSubmit user st (some e)).state = st := by
  subst hu
  rw [show jsTrim st.submissionText ≠ "" ↔ (jsTrim st.submissionText == "") = false by
        simp [beq_iff_eq]] at ht
  simp [handleSubmit, ha, ht]

/-- Witness for C4 at a concrete state. -/
theorem submit_failure_state_unchanged_witness :
    (handleSubmit (some "u1") stValid (some "network down")).toasts =
        [Toast.error "Failed to submit assignment"] ∧
      (handleSubmit (some "u1") stValid (some "network down")).state = stValid :=
  submit_failure_state_unchanged (some "u1") "u1" stValid asg1 "network down"
    rfl rfl (by decide)

@[simp] theorem lookupGroup_nil (c : String) : lookupGroup [] c = none := rfl

/-- Inserting one assignment touches exactly its course's entry: lookup of
that course gains the assignment at the end, every other lookup is
unchanged. -/
theorem lookupGroup_groupInsert (g : List (String × List Assignment))
    (a : Assignment) (c : String) :
    lookupGroup (groupInsert g a) c =
      if a.course_id == c then some ((lookupGroup g c).getD [] ++ [a])
      else lookupGroup g c := by
  induction g with
  | nil =>
      by_cases h : a.course_id = c <;> simp [groupInsert, lookupGroup, h]
  | cons p rest ih =>
      by_cases hp : p.1 = a.course_id
      · by_cases hc : p.1 = c
        · have hac : a.course_id = c := hp ▸ hc
          simp [groupInsert, lookupGroup, hp, hc, hac]
        · have hac : a.course_id ≠ c := fun h => hc (hp.trans h)
          simp [groupInsert, lookupGroup, hp, hc, hac]
      · by_cases hc : p.1 = c
        · have hac : a.course_id ≠ c := fun h => hp (hc.trans h.symm)
          have hca : ¬c = a.course_id := fun h => hac h.symm
          simp [groupInsert, lookupGroup, hp, hc, hac, hca]
        · simp [groupInsert, lookupGroup, hp, hc, ih]

/-- Folding the grouping step over a row list: a course's entry accumulates
exactly the rows whose `course_id` matches, in order. -/
theorem lookupGroup_foldl (data : List Assignment)
    (g : List (String × List Assignment)) (c : String) :
    lookupGroup (data.foldl groupInsert g) c =
      if data.any (fun a => a.course_id == c) || (lookupGroup g c).isSome
      then some ((lookupGroup g c).getD [] ++
        data.filter (fun a => a.course_id == c))
      else none := by
  induction data generalizing g with
  | nil => cases h : lookupGroup g c <;> simp [h]
  | cons a rest ih =>
      rw [List.foldl_cons, ih, lookupGroup_groupInsert]
      by_cases ha : a.course_id = c
      · cases h : lookupGroup g c <;>
          simp [ha, h, List.filter_cons, List.any_cons]
      · simp [ha, List.filter_cons, List.any_cons]

/-- C5: over any store response sorted ascending by phase number, the grouped
mapping built by `fetchAssignments` has as keys exactly the distinct
`course_id` values of the response, and every per-course list is itself
sorted ascending by `phase_number`. -/
theorem grouped_keys_and_sorted (data : List Assignment)
    (hsorted : data.Pairwise (fun x y => x.phase_number ≤ y.phase_number)) :
    (∀ c : String, (lookupGroup (groupByCourse data) c).isSome = true ↔
        c ∈ data.map (·.course_id)) ∧
    (∀ (c : String) (l : List Assignment),
        lookupGroup (groupByCourse data) c = some l →
        l.Pairwise (fun x y => x.phase_number ≤ y.phase_number)) := by
  constructor
  · intro c
    have hany : (data.any (fun a => a.course_id == c)) = true ↔
        c ∈ data.map (·.course_id) := by
      simp [List.any_eq_true, List.mem_map, beq_iff_eq]
    rw [groupByCourse, lookupGroup_foldl, lookupGroup_nil, ← hany]
    cases hc : data.any (fun a => a.course_id == c) <;> simp [hc]
  · intro c l hl
    rw [groupByCourse, lookupGroup_foldl, lookupGroup_nil] at hl
    by_cases hc : (data.any (fun a => a.course_id == c)) = true
    · simp [hc] at hl
      subst hl
      exact List.Pairwise.sublist (List.filter_sublist _) hsorted
    · simp [hc] at hl

/-- Further concrete assignments used by the witness theorems. -/
def asg2 : Assignment :=
  { id := "a2", course_id := "c2", phase_number := 1, title := "HW2"
    description := none, due_days := some 7, max_score := some 100 }

def asg3 : Assignment :=
  { id := "a3", course_id := "c1", phase_number := 2, title := "HW3"
    description := some "essay", due_days := none, max_score := some 50 }

/-- A concrete store response, sorted ascending by phase number. -/
def dataW : List Assignment := [asg1, asg2, asg3]

/-- Witness for C5 at a concrete sorted response. -/
theorem grouped_keys_and_sorted_witness :
    (lookupGroup (groupByCourse dataW) "c1").isSome = true ↔
      "c1" ∈ dataW.map (·.course_id) :=
  (grouped_keys_and_sorted dataW (by decide)).1 "c1"

/-- The badge returned by `getStatusBadge` (lines 122-134). -/
inductive StatusBadge where
  | notSubmitted
  | pending
  | graded
  | generic (status : String)
deriving DecidableEq, Repr

/-- What one assignment row renders (lines 173-208): the status badge, and
which of the submit button, feedback button, and awaiting-review message are
present. -/
structure AssignmentRowView where
  badge : StatusBadge
  hasSubmitAction : Bool
  hasFeedbackAction : Bool
  hasAwaitingMessage : Bool
deriving DecidableEq, Repr

/-- `getStatusBadge` (lines 122-134): no submission, then the "pending" and
"graded" switch cases, then the default case showing the status verbatim. -/
def getStatusBadge : Option Submission → StatusBadge
  | none => StatusBadge.notSubmitted
  | some s =>
      if s.status == "pending" then StatusBadge.pending
      else if s.status == "graded" then StatusBadge.graded
      else StatusBadge.generic s.status

/-- The per-assignment render logic (lines 173-208): the submit button shows
iff there is no submission, the feedback button iff the submission's status
is "graded", the awaiting message iff it is "pending". -/
def renderAssignmentRow (submissions : List Submission) (a : Assignment) :
    AssignmentRowView :=
  let submission := getSubmission submissions a.id
  { badge := getStatusBadge submission
    hasSubmitAction := submission.isNone
    hasFeedbackAction :=
      match submission with
      | some s => s.status == "graded"
      | none => false
    hasAwaitingMessage :=
      match submission with
      | some s => s.status == "pending"
      | none => false }

/-- C6: each assignment renders in exactly one of four mutually exclusive
display states, decided by the first submission in the cached list matching
its id: none gives the not-submitted badge with a submit action and no
feedback action; "pending" gives the pending badge with neither action;
"graded" gives the graded badge with a feedback action and no submit action;
any other status gives a generic badge carrying that status verbatim, with no
action. -/
theorem assignment_row_four_states (submissions : List Submission) (a : Assignment) :
    (getSubmission submissions a.id = none →
      renderAssignmentRow submissions a =
        { badge := StatusBadge.notSubmitted, hasSubmitAction := true
          hasFeedbackAction := false, hasAwaitingMessage := false }) ∧
    (∀ s, getSubmission submissions a.id = some s → s.status = "pending" →
      renderAssignmentRow submissions a =
        { badge := StatusBadge.pending, hasSubmitAction := false
          hasFeedbackAction := false, hasAwaitingMessage := true }) ∧
    (∀ s, getSubmission submissions a.id = some s → s.status = "graded" →
      renderAssignmentRow submissions a =
        { badge := StatusBadge.graded, hasSubmitAction := false
          hasFeedbackAction := true, hasAwaitingMessage := false }) ∧
    (∀ s, getSubmission submissions a.id = some s →
      s.status ≠ "pending" → s.status ≠ "graded" →
      renderAssignmentRow submissions a =
        { badge := StatusBadge.generic s.status, hasSubmitAction := false
          hasFeedbackAction := false, hasAwaitingMessage := false }) := by
  refine ⟨fun h => ?_, fun s h hs => ?_, fun s h hs => ?_, fun s h hp hg => ?_⟩ <;>
    simp_all [renderAssignmentRow, getStatusBadge]

/-- A concrete pending submission for `asg1`, used by witness theorems. -/
def subPending : Submission :=
  { id := "s1", assignment_id := "a1", submission_text := some "My answer"
    score := none, feedback := none, status := "pending"
    submitted_at := "2026-01-05" }

/-- Witness for C6: the pending state at a concrete submission list. -/
theorem assignment_row_four_states_witness :
    renderAssignmentRow [subPending] asg1 =
      { badge := StatusBadge.pending, hasSubmitAction := false
        hasFeedbackAction := false, hasAwaitingMessage := true } :=
  (assignment_row_four_states [subPending] asg1).2.1 subPending rfl rfl

/-- The effect hook (lines 52-57): requests issued on mount or when the
courses prop or the user changes.  Both fetches run only when the course
list is non-empty and a user is present. -/
def effectRequests (courses : List CourseInfo) (user : Option String) :
    List Request :=
  if courses.length > 0 && user.isSome then
    [Request.readAssignments (courses.map (·.id))] ++ fetchSubmissionsRequest user
  else []

/-- Line 154: the empty-state paragraph is rendered iff the courses prop is
empty (the ternary `courses.length === 0`). -/
def rendersEmptyState (courses : List CourseInfo) : Bool :=
  courses.length == 0

/-- A concrete course used by counterexample and witness theorems. -/
def course1 : CourseInfo := { id := "c1", title := "Algebra I", current_phase := 1 }

/-- C7 counterexample: with a non-empty course list and no identity, no fetch
is issued (as claimed) but the empty-state message is NOT rendered — the
course list renders instead, refuting the claim that the empty state shows
whenever the identity is absent. -/
theorem empty_state_not_rendered_cex :
    effectRequests [course1] none = [] ∧ rendersEmptyState [course1] = false := by
  constructor <;> rfl

/-- C7 amended: whenever the course list is empty or the identity is absent,
no fetch is issued; the empty-state message is rendered exactly when the
course list is empty, regardless of the identity. -/
theorem effect_guard_no_fetch (courses : List CourseInfo) (user : Option String)
    (h : courses = [] ∨ user = none) :
    effectRequests courses user = [] ∧
      (rendersEmptyState courses = true ↔ courses = []) := by
  constructor
  · rcases h with h | h
    · subst h; simp [effectRequests]
    · subst h; simp [effectRequests]
  · simp [rendersEmptyState, List.length_eq_zero]

/-- Witness for the amended C7 at a concrete input. -/
theorem effect_guard_no_fetch_witness :
    effectRequests [] (some "u1") = [] ∧
      (rendersEmptyState [] = true ↔ ([] : List CourseInfo) = []) :=
  effect_guard_no_fetch [] (some "u1") (Or.inl rfl)

/-- C8: a failed assignment fetch logs the error, shows no toast, issues no
further request, and leaves the state untouched; a failed submission fetch
shows no toast, logs nothing, issues no further request, and degrades the
cached submission list to empty. -/
theorem read_failures_degrade (courses : List CourseInfo)
    (st st2 : ViewerState) (u e e2 : String) :
    (fetchAssignments courses st (Except.error e)).state = st ∧
      (fetchAssignments courses st (Except.error e)).toasts = [] ∧
      (fetchAssignments courses st (Except.error e)).requests =
        [Request.readAssignments (courses.map (·.id))] ∧
      (fetchAssignments courses st (Except.error e)).logs =
        ["Failed to fetch assignments: " ++ e] ∧
      (fetchSubmissions (some u) st2 (Except.error e2)).state =
        { st2 with submissions := [] } ∧
      (fetchSubmissions (some u) st2 (Except.error e2)).toasts = [] ∧
      (fetchSubmissions (some u) st2 (Except.error e2)).logs = [] ∧
      (fetchSubmissions (some u) st2 (Except.error e2)).requests =
        [Request.readSubmissions u] :=
  ⟨rfl, rfl, rfl, rfl, rfl, rfl, rfl, rfl⟩

/-- `getAssignmentCountForCourse` (lines 136-138):
`assignments[courseId]?.length || 0`. -/
def getAssignmentCountForCourse (assignments : List (String × List Assignment))
    (courseId : String) : Nat :=
  match lookupGroup assignments courseId with
  | some l => l.length
  | none => 0

/-- `getCompletedCountForCourse` (lines 140-143): among the course's cached
assignments, those with any matching submission. -/
def getCompletedCountForCourse (assignments : List (String × List Assignment))
    (submissions : List Submission) (courseId : String) : Nat :=
  (((lookupGroup assignments courseId).getD []).filter
    (fun a => (getSubmission submissions a.id).isSome)).length

/-- C10: the completed count never exceeds the assignment count for a course
(each assignment contributes at most once, duplicate submissions
notwithstanding, since the count filters assignments, not submissions), and
both counts are 0 for a course id absent from the assignment index. -/
theorem completed_count_bounds (assignments : List (String × List Assignment))
    (submissions : List Submission) (courseId : String) :
    getCompletedCountForCourse assignments submissions courseId ≤
      getAssignmentCountForCourse assignments courseId ∧
    (lookupGroup assignments courseId = none →
      getAssignmentCountForCourse assignments courseId = 0 ∧
      getCompletedCountForCourse assignments submissions courseId = 0) := by
  constructor
  · cases h : lookupGroup assignments courseId with
    | none => simp [getAssignmentCountForCourse, getCompletedCountForCourse, h]
    | some l =>
        simp only [getAssignmentCountForCourse, getCompletedCountForCourse, h,
          Option.getD_some]
        exact List.length_filter_le _ _
  · intro h
    simp [getAssignmentCountForCourse, getCompletedCountForCourse, h]

/-- Witness for C10: a duplicate submission for the same assignment still
yields a completed count within bounds, and a course id absent from the index
counts 0. -/
theorem completed_count_bounds_witness :
    getCompletedCountForCourse [("c1", [asg1, asg3])]
        [subPending, subPending] "c1" ≤
      getAssignmentCountForCourse [("c1", [asg1, asg3])] "c1" ∧
    getAssignmentCountForCourse [("c1", [asg1, asg3])] "zzz" = 0 :=
  ⟨(completed_count_bounds [("c1", [asg1, asg3])] [subPending, subPending] "c1").1,
   ((completed_count_bounds [("c1", [asg1, asg3])] [subPending, subPending] "zzz").2
      rfl).1⟩

/-- Postgres `storage.foldername`: the path's folder segments, i.e. the
slash-separated segments without the final (file name) one.  The SQL
policies index this array 1-based; here `get? 0` is the first folder and
`get? 1` the second. -/
def foldername (name : String) : List String :=
  (name.splitOn "/").dropLast

/-- SQL `=` on nullable text: NULL on either side never compares true. -/
def sqlTextEq : Option String → Option String → Bool
  | some a, some b => a == b
  | _, _ => false

/-- The evaluation context of the storage policies: `auth.uid()`, the value
of `public.has_role(auth.uid(), 'admin')`, and whether a `tutor_courses` row
with `tutor_id = auth.uid()` exists. -/
structure PolicyCtx where
  uid : Option String
  isAdmin : Bool
  isTutor : Bool
deriving DecidableEq, Repr

/-- Policy "Students can upload submission files" (migration
20260105020751, FOR INSERT): bucket `assignments`, authenticated, first
folder `submissions`, second folder the caller's own uid. -/
def studentsCanUploadSubmissionFiles (ctx : PolicyCtx)
    (bucket_id name : String) : Bool :=
  bucket_id == "assignments" && ctx.uid.isSome &&
    sqlTextEq ((foldername name)[0]?) (some "submissions") &&
    sqlTextEq ((foldername name)[1]?) ctx.uid

/-- Policy "Students can view own submission files" (FOR SELECT): bucket
`assignments`, first folder `submissions`, second folder the caller's uid. -/
def studentsCanViewOwnSubmissionFiles (ctx : PolicyCtx)
    (bucket_id name : String) : Bool :=
  bucket_id == "assignments" &&
    sqlTextEq ((foldername name)[0]?) (some "submissions") &&
    sqlTextEq ((foldername name)[1]?) ctx.uid

/-- Policy "Admins can manage all assignment files" (FOR ALL): bucket
`assignments` and the admin role. -/
def adminsCanManageAllAssignmentFiles (ctx : PolicyCtx)
    (bucket_id : String) : Bool :=
  bucket_id == "assignments" && ctx.isAdmin

/-- Whether an INSERT into `storage.objects` is permitted: permissive
policies combine by OR.  The insert-applicable policies on this bucket are
the student upload policy and the admin FOR ALL policy (the tutor policy is
SELECT-only). -/
def insertPermitted (ctx : PolicyCtx) (bucket_id name : String) : Bool :=
  studentsCanUploadSubmissionFiles ctx bucket_id name ||
    adminsCanManageAllAssignmentFiles ctx bucket_id

/-- C9: for every authenticated non-admin identity and every object path in
the `assignments` bucket, an insert is permitted, and a read passes the
student policy, exactly when the path's first folder is "submissions" and
its second folder is the identity's own uid. -/
theorem storage_policies_scope_submissions (u name : String) (isTutor : Bool) :
    (insertPermitted { uid := some u, isAdmin := false, isTutor := isTutor }
        "assignments" name = true ↔
      (foldername name)[0]? = some "submissions" ∧
        (foldername name)[1]? = some u) ∧
    (studentsCanViewOwnSubmissionFiles
        { uid := some u, isAdmin := false, isTutor := isTutor }
        "assignments" name = true ↔
      (foldername name)[0]? = some "submissions" ∧
        (foldername name)[1]? = some u) := by
  cases h0 : (foldername name)[0]? <;> cases h1 : (foldername name)[1]? <;>
    simp [insertPermitted, studentsCanUploadSubmissionFiles,
      adminsCanManageAllAssignmentFiles, studentsCanViewOwnSubmissionFiles,
      sqlTextEq, h0, h1]

end TechMarSign
